import Mathlib

/-!
# pyavroc `AvroDeserializer` (src/deserializer.c)

A shallow embedding of the session object of `deserializer.c`: its constructor
`AvroDeserializer_init`, `do_close`, `AvroDeserializer_deserialize`,
`AvroDeserializer_close` and `AvroDeserializer_reduce`.

The avro-c library and the Python runtime are not part of the file.  Their
functions appear as the fields of `AvroLib`, an arbitrary (deterministic)
implementation over which every theorem quantifies.  Each function of the file
returns, besides its C return value and the new session fields, the list of
library calls it issued, in order.
-/

namespace Pyavroc

/-! ## The embedding -/

/-- A C pointer; `0` is `NULL`. -/
abbrev Ptr := Nat

/-- Modelled from the spec: `deserializer.h` is not among the sources; the flag
that records that the cursor (`datum_reader`) is held is one bit of `flags`,
independent of the schema bit. -/
def DESERIALIZER_READER_OK : Nat := 1

/-- Modelled from the spec: `deserializer.h` is not among the sources; the flag
that records that the schema is held is one bit of `flags`, independent of the
cursor bit. -/
def DESERIALIZER_SCHEMA_OK : Nat := 2

/-- The C operator `~` on a 32-bit `int`. -/
def bitNot32 (m : Nat) : Nat := (2 ^ 32 - 1) ^^^ (m % 2 ^ 32)

/-- C `strlen` on the bytes that start at a pointer. -/
def strlen : List Nat → Nat
  | [] => 0
  | c :: cs => if c = 0 then 0 else strlen cs + 1

/-- C `strncpy(dst, src, n)`: the `n` bytes written to `dst`; once the NUL of
`src` is met the rest is filled with NUL. -/
def strncpy : List Nat → Nat → List Nat
  | _, 0 => []
  | [], n + 1 => List.replicate (n + 1) 0
  | c :: cs, n + 1 => if c = 0 then List.replicate (n + 1) 0 else c :: strncpy cs n

/-- The text a NUL-terminated block holds: what `Py_BuildValue` reads for the
format unit `s`. -/
def cstring : List Nat → List Nat
  | [] => []
  | c :: cs => if c = 0 then [] else c :: cstring cs

/-- A block obtained from `malloc`, with the bytes written to it. -/
structure CBlock where
  addr : Ptr
  bytes : List Nat
deriving DecidableEq, Repr

/-- The fields of `struct AvroDeserializer` that the file reads or writes
(`info.types` is `info_types`; `ob_type` is the class from `PyObject_HEAD`;
`schema_json = none` is the `NULL` pointer). -/
structure AvroDeserializer where
  ob_type : Ptr
  schema : Ptr
  iface : Ptr
  datum_reader : Ptr
  flags : Nat
  info_types : Ptr
  schema_json : Option CBlock
deriving DecidableEq, Repr

/-- A session as `tp_alloc` hands it to `tp_init`: every field after the object
header is zero. -/
def fresh (ob_type : Ptr) : AvroDeserializer :=
  { ob_type := ob_type, schema := 0, iface := 0, datum_reader := 0, flags := 0,
    info_types := 0, schema_json := none }

/-- The state of an avro-c memory reader (`struct _avro_reader_memory_t`): the
bytes it is bound to, their number, and the read position. -/
structure MemReader where
  buf : List Nat
  len : Nat
  read : Nat
deriving DecidableEq, Repr

/-- The memory readers, by address.  Freeing a reader leaves the map as it is;
which resources a session holds is recorded apart, in `Tracked.held`. -/
abbrev Heap := Ptr → MemReader

/-- A Python object passed as `types`: its address, its type and what
`PyObject_IsTrue` answers for it (`1`, `0`, or `-1` on error). -/
structure PyObj where
  addr : Ptr
  ob_type : Ptr
  isTrue : Int
deriving DecidableEq, Repr

/-- The exception classes the file raises. -/
inductive PyExc where
  | IOError
  | MemoryError
deriving DecidableEq, Repr

/-- The two local value trees of `AvroDeserializer_deserialize`. -/
inductive Var where
  | value
  | source
deriving DecidableEq, Repr

/-- One call into avro-c, libc or the Python runtime, with the arguments that
identify the object it works on and, where the file looks at it, its result. -/
inductive Call where
  | PyArg_ParseTupleAndKeywords (ok : Bool)
  | avro_schema_from_json (text : List Nat) (rval : Int) (out : Ptr)
  | malloc (size : Nat) (ret : Ptr)
  | strncpy (dst : Ptr) (bytes : List Nat)
  | avro_generic_class_from_schema (schema : Ptr) (ret : Ptr)
  | avro_reader_memory (ret : Ptr)
  | Py_INCREF (o : Ptr)
  | Py_INCREF_None
  | PyObject_CallFunctionObjArgs (callable : Ptr) (ret : Ptr)
  | declare_types (types : Ptr) (schema : Ptr)
  | PyErr_Format (exc : PyExc)
  | PyErr_SetString (exc : PyExc)
  | PyErr_NoMemory
  | error_prefix_set
  | avro_reader_free (reader : Ptr)
  | avro_schema_decref (schema : Ptr)
  | free (block : Ptr)
  | avro_value_iface_decref (iface : Ptr)
  | avro_reader_reset (reader : Ptr)
  | avro_reader_memory_set_source (reader : Ptr) (buf : List Nat) (len : Nat)
  | avro_generic_value_new (iface : Ptr) (dest : Var) (rval : Int)
  | avro_value_read (reader : Ptr) (cursor : MemReader) (rval : Int)
  | avro_value_read_with_resolution (reader : Ptr) (cursor : MemReader) (rval : Int)
  | avro_value_decref (v : Var)
  | avro_to_python (types : Ptr) (ret : Ptr)
deriving DecidableEq, Repr

/-- The library the file is linked against; `V` is the content of an
`avro_value_t`.  `avro_schema_from_json` gives its return value and the value of
the out-parameter after the call; a pointer result `0` is `NULL`. -/
structure AvroLib (V : Type) where
  avro_schema_from_json : List Nat → Int × Ptr
  avro_generic_class_from_schema : Ptr → Ptr
  avro_reader_memory : Ptr
  malloc : Nat → Ptr
  get_avro_types_type : Ptr
  PyObject_CallFunctionObjArgs : Ptr → Ptr
  avro_generic_value_new : Ptr → Int × V
  avro_value_read : MemReader → V → Int × MemReader × V
  avro_value_read_with_resolution : MemReader → V → V → Int × MemReader × V
  avro_to_python : Ptr → V → Ptr

/-- The Python arguments of the constructor: `schema` when it is a string, and
`types` when it is given. -/
structure InitArgs where
  schema : Option (List Nat)
  types : Option PyObj
deriving DecidableEq, Repr

/-- Modelled from the spec: `PyArg_ParseTupleAndKeywords` with the format
`"s|O"` belongs to the Python runtime.  It fails when `schema` is missing, is
not a string or holds a NUL; otherwise `schema_json` points to the text followed
by a NUL and `types` is the optional object (`none` is `NULL`). -/
def parseInitArgs (a : InitArgs) : Option (List Nat × Option PyObj) :=
  match a.schema with
  | none => none
  | some t => if 0 ∈ t then none else some (t ++ [0], a.types)

/-- What `AvroDeserializer_init` leaves: return value, session, readers, calls. -/
structure InitResult where
  rval : Int
  self : AvroDeserializer
  heap : Heap
  trace : List Call

/-- `AvroDeserializer_init` (deserializer.c 25-86).  The result is `none` when
`malloc` returns `NULL`: the file then copies through the null pointer. -/
def AvroDeserializer_init {V : Type} (lib : AvroLib V) (self : AvroDeserializer)
    (heap : Heap) (args : InitArgs) : Option InitResult :=
  let self0 := { self with flags := 0, iface := 0 }
  match parseInitArgs args with
  | none => some ⟨-1, self0, heap, [.PyArg_ParseTupleAndKeywords false]⟩
  | some (schema_json, types) =>
    let sj := lib.avro_schema_from_json schema_json
    let self1 := { self0 with schema := sj.2 }
    let t1 := [Call.PyArg_ParseTupleAndKeywords true,
               Call.avro_schema_from_json schema_json sj.1 sj.2]
    if sj.1 ≠ 0 ∨ self1.schema = 0 then
      some ⟨-1, self1, heap, t1 ++ [.PyErr_Format .IOError]⟩
    else
      let self2 := { self1 with flags := self1.flags ||| DESERIALIZER_SCHEMA_OK }
      let len := strlen schema_json
      let block := lib.malloc (len + 1)
      if block = 0 then none
      else
        let self3 := { self2 with
          schema_json := some ⟨block, strncpy schema_json (len + 1)⟩ }
        let iface := lib.avro_generic_class_from_schema self3.schema
        let self4 := { self3 with iface := iface }
        let t2 := t1 ++ [Call.malloc (len + 1) block,
                         Call.strncpy block (strncpy schema_json (len + 1)),
                         Call.avro_generic_class_from_schema self3.schema iface]
        if self4.iface = 0 then
          some ⟨-1, self4, heap, t2 ++ [.PyErr_SetString .IOError]⟩
        else
          let reader := lib.avro_reader_memory
          let self5 := { self4 with datum_reader := reader }
          let heap1 := if reader = 0 then heap else Function.update heap reader ⟨[], 0, 0⟩
          let t3 := t2 ++ [Call.avro_reader_memory reader]
          if self5.datum_reader = 0 then
            some ⟨-1, self5, heap1, t3 ++ [.PyErr_NoMemory]⟩
          else
            let self6 := { self5 with flags := self5.flags ||| DESERIALIZER_READER_OK }
            match types with
            | some o =>
              if o.isTrue ≠ 0 then
                if o.ob_type = lib.get_avro_types_type then
                  some ⟨0, { self6 with info_types := o.addr }, heap1,
                    t3 ++ [.Py_INCREF o.addr]⟩
                else
                  let made := lib.PyObject_CallFunctionObjArgs lib.get_avro_types_type
                  let self7 := { self6 with info_types := made }
                  let t4 := t3 ++ [Call.PyObject_CallFunctionObjArgs
                                     lib.get_avro_types_type made]
                  if self7.info_types = 0 then
                    some ⟨-1, self7, heap1, t4⟩
                  else
                    some ⟨0, self7, heap1, t4 ++ [.declare_types made self7.schema]⟩
              else
                some ⟨0, { self6 with info_types := 0 }, heap1, t3⟩
            | none =>
              some ⟨0, { self6 with info_types := 0 }, heap1, t3⟩

/-- What `do_close` leaves: return value, session, calls. -/
structure CloseResult where
  rval : Int
  self : AvroDeserializer
  trace : List Call
deriving DecidableEq, Repr

/-- `do_close` (deserializer.c 88-107). -/
def do_close (self : AvroDeserializer) : CloseResult :=
  let r1 : AvroDeserializer × List Call :=
    if self.flags &&& DESERIALIZER_READER_OK ≠ 0 then
      ({ self with flags := self.flags &&& bitNot32 DESERIALIZER_READER_OK },
        [Call.avro_reader_free self.datum_reader])
    else (self, [])
  let r2 : AvroDeserializer × List Call :=
    if r1.1.flags &&& DESERIALIZER_SCHEMA_OK ≠ 0 then
      ({ r1.1 with flags := r1.1.flags &&& bitNot32 DESERIALIZER_SCHEMA_OK },
        r1.2 ++ [Call.avro_schema_decref r1.1.schema])
    else r1
  let r3 : AvroDeserializer × List Call :=
    match r2.1.schema_json with
    | some b => ({ r2.1 with schema_json := none }, r2.2 ++ [Call.free b.addr])
    | none => r2
  let r4 : AvroDeserializer × List Call :=
    if r3.1.iface ≠ 0 then
      ({ r3.1 with iface := 0 }, r3.2 ++ [Call.avro_value_iface_decref r3.1.iface])
    else r3
  ⟨0, r4.1, r4.2⟩

/-- `AvroDeserializer_close` (deserializer.c 170-177): `do_close`, then a new
reference to `Py_None` is returned. -/
def AvroDeserializer_close (self : AvroDeserializer) : CloseResult :=
  let r := do_close self
  ⟨r.rval, r.self, r.trace ++ [Call.Py_INCREF_None]⟩

/-- The Python arguments of `deserialize`: `buffer` when it is a string or
bytes object, and `writer_schema` when it is given and is not `None`. -/
structure DeserializeArgs where
  buffer : Option (List Nat)
  writer_schema : Option (List Nat)
deriving DecidableEq, Repr

/-- Modelled from the spec: `PyArg_ParseTupleAndKeywords` with the format
`"s#|z"` belongs to the Python runtime.  It fails when `buffer` is missing or
is not a string, or when the writer schema holds a NUL; otherwise it gives the
bytes of `buffer`, their number, and `wschema_json`, which stays `NULL` (`none`)
when no writer schema or `None` was passed and else points to the text followed
by a NUL. -/
def parseDeserializeArgs (a : DeserializeArgs) :
    Option (List Nat × Nat × Option (List Nat)) :=
  match a.buffer with
  | none => none
  | some b =>
    match a.writer_schema with
    | none => some (b, b.length, none)
    | some w => if 0 ∈ w then none else some (b, b.length, some (w ++ [0]))

/-- Modelled from the spec: `avro_reader_reset` belongs to avro-c; it puts the
read position of a memory reader back to zero (spec 4.3). -/
def avro_reader_reset (heap : Heap) (reader : Ptr) : Heap :=
  Function.update heap reader { heap reader with read := 0 }

/-- Modelled from the spec: `avro_reader_memory_set_source` belongs to avro-c;
it binds the reader to a new buffer and length, at position zero (spec 4.3). -/
def avro_reader_memory_set_source (heap : Heap) (reader : Ptr) (buf : List Nat)
    (len : Nat) : Heap :=
  Function.update heap reader ⟨buf, len, 0⟩

/-- What `AvroDeserializer_deserialize` leaves: the returned `PyObject *`
(`0` is `NULL`, an exception is pending), session, readers, calls. -/
structure DeserializeResult where
  ret : Ptr
  self : AvroDeserializer
  heap : Heap
  trace : List Call

/-- `AvroDeserializer_deserialize` (deserializer.c 116-168). -/
def AvroDeserializer_deserialize {V : Type} (lib : AvroLib V) (self : AvroDeserializer)
    (heap : Heap) (args : DeserializeArgs) : DeserializeResult :=
  let heap1 := avro_reader_reset heap self.datum_reader
  match parseDeserializeArgs args with
  | none =>
    ⟨0, self, heap1,
      [.avro_reader_reset self.datum_reader, .PyArg_ParseTupleAndKeywords false]⟩
  | some (buffer, buffer_size, wschema_json) =>
    let heap2 := avro_reader_memory_set_source heap1 self.datum_reader buffer buffer_size
    let value := lib.avro_generic_value_new self.iface
    let t0 := [Call.avro_reader_reset self.datum_reader,
               Call.PyArg_ParseTupleAndKeywords true,
               Call.avro_reader_memory_set_source self.datum_reader buffer buffer_size,
               Call.avro_generic_value_new self.iface Var.value value.1]
    let rd : (Int × MemReader × V) × List Call :=
      match wschema_json with
      | none =>
        let x := lib.avro_value_read (heap2 self.datum_reader) value.2
        (x, [Call.avro_value_read self.datum_reader (heap2 self.datum_reader) x.1])
      | some w =>
        let wschema := lib.avro_schema_from_json w
        let wiface := lib.avro_generic_class_from_schema wschema.2
        let source := lib.avro_generic_value_new wiface
        let x := lib.avro_value_read_with_resolution (heap2 self.datum_reader)
                   source.2 value.2
        (x, [Call.avro_schema_from_json w wschema.1 wschema.2,
             Call.avro_generic_class_from_schema wschema.2 wiface,
             Call.avro_generic_value_new wiface Var.source source.1,
             Call.avro_value_read_with_resolution self.datum_reader
               (heap2 self.datum_reader) x.1,
             Call.avro_value_decref Var.source,
             Call.avro_schema_decref wschema.2,
             Call.avro_value_iface_decref wiface])
    let rval := rd.1.1
    let heap3 := Function.update heap2 self.datum_reader rd.1.2.1
    if rval ≠ 0 then
      ⟨0, self, heap3,
        t0 ++ rd.2 ++ [.avro_value_decref Var.value, .error_prefix_set,
                       .PyErr_Format .IOError]⟩
    else
      let result := lib.avro_to_python self.info_types rd.1.2.2
      ⟨result, self, heap3,
        t0 ++ rd.2 ++ [.avro_to_python self.info_types result,
                       .avro_value_decref Var.value]⟩

/-- The tuple `Py_BuildValue("O(s)", attr, schema_json)` builds: the class, and
the one-element argument tuple, whose element is `None` (`none`) for a `NULL`
string. -/
structure ReduceResult where
  cls : Ptr
  text : Option (List Nat)
deriving DecidableEq, Repr

/-- `AvroDeserializer_reduce` (deserializer.c 179-185); the attribute
`__class__` of an object is its type. -/
def AvroDeserializer_reduce (self : AvroDeserializer) : ReduceResult :=
  let attr := self.ob_type
  ⟨attr, self.schema_json.map (fun b => cstring b.bytes)⟩

/-- The value the member `types` of `AvroDeserializer_members` reads
(`T_OBJECT` at `info.types`): `None` (`none`) for a `NULL` pointer. -/
def member_types (self : AvroDeserializer) : Option Ptr :=
  if self.info_types = 0 then none else some self.info_types

/-- A run of `deserialize` calls, one after the other, on a session and its
readers. -/
def runDeserialize {V : Type} (lib : AvroLib V) (st : AvroDeserializer × Heap)
    (calls : List DeserializeArgs) : AvroDeserializer × Heap :=
  calls.foldl
    (fun st a =>
      ((AvroDeserializer_deserialize lib st.1 st.2 a).self,
       (AvroDeserializer_deserialize lib st.1 st.2 a).heap))
    st

/-- The two ways `deserialize` reads the buffer. -/
inductive ReadKind where
  | direct
  | resolved
deriving DecidableEq, Repr

/-- The kind of read a call is, if it is one. -/
def readKind : Call → Option ReadKind
  | .avro_value_read _ _ _ => some .direct
  | .avro_value_read_with_resolution _ _ _ => some .resolved
  | _ => none

/-- The calls of the resolved path that work on the writer schema. -/
def isWriterCall : Call → Bool
  | .avro_schema_from_json _ _ _ => true
  | .avro_generic_class_from_schema _ _ => true
  | .avro_generic_value_new _ .source _ => true
  | _ => false

/-- The four resources a session owns and `do_close` gives back. -/
inductive Resource where
  | cursor (p : Ptr)
  | schema (p : Ptr)
  | schemaText (p : Ptr)
  | plan (p : Ptr)
deriving DecidableEq, Repr

/-- The resource a constructor call hands to the session, if any: a schema
when `avro_schema_from_json` returns 0 and stores a non-null schema, and the
block, plan or cursor when the call returns a non-null pointer. -/
def acquired : Call → Option Resource
  | .avro_schema_from_json _ rval out =>
    if rval = 0 ∧ out ≠ 0 then some (.schema out) else none
  | .malloc _ ret => if ret ≠ 0 then some (.schemaText ret) else none
  | .avro_generic_class_from_schema _ ret => if ret ≠ 0 then some (.plan ret) else none
  | .avro_reader_memory ret => if ret ≠ 0 then some (.cursor ret) else none
  | _ => none

/-- The resource a call of `do_close` gives back, if any. -/
def released : Call → Option Resource
  | .avro_reader_free r => some (.cursor r)
  | .avro_schema_decref s => some (.schema s)
  | .free b => some (.schemaText b)
  | .avro_value_iface_decref i => some (.plan i)
  | _ => none

/-- The resources acquired by the calls of a constructor run, in order. -/
def acquisitions (tr : List Call) : List Resource := tr.filterMap acquired

/-- The resources released by the calls of a `do_close` run, in order. -/
def releases (tr : List Call) : List Resource := tr.filterMap released

/-- The session resource a call of `deserialize` works on, if any: the cursor
for the reader calls, the reader plan for the allocation of `value`.  (The
writer plan of the resolved path is made and dropped inside the call; it is not
a resource of the session.) -/
def used : Call → Option Resource
  | .avro_reader_reset r => some (.cursor r)
  | .avro_reader_memory_set_source r _ _ => some (.cursor r)
  | .avro_value_read r _ _ => some (.cursor r)
  | .avro_value_read_with_resolution r _ _ => some (.cursor r)
  | .avro_generic_value_new i .value _ => some (.plan i)
  | _ => none

/-- A session together with its readers and the resources it holds. -/
structure Tracked where
  self : AvroDeserializer
  heap : Heap
  held : List Resource

/-- The two methods that may be called on a constructed session. -/
inductive Op where
  | deserialize (a : DeserializeArgs)
  | close
deriving DecidableEq, Repr

/-- The session right after a constructor run: it holds what the run
acquired. -/
def afterInit (r : InitResult) : Tracked := ⟨r.self, r.heap, acquisitions r.trace⟩

/-- One method call: `deserialize` keeps what is held, `close` gives up what
its calls release. -/
def step {V : Type} (lib : AvroLib V) (st : Tracked) : Op → Tracked
  | .deserialize a =>
    ⟨(AvroDeserializer_deserialize lib st.self st.heap a).self,
     (AvroDeserializer_deserialize lib st.self st.heap a).heap, st.held⟩
  | .close =>
    ⟨(AvroDeserializer_close st.self).self, st.heap,
     st.held.filter fun x => decide (x ∉ releases (AvroDeserializer_close st.self).trace)⟩

/-- A sequence of method calls. -/
def run {V : Type} (lib : AvroLib V) (st : Tracked) (ops : List Op) : Tracked :=
  ops.foldl (step lib) st

/-- The flags and the plan pointer tell what is held: the cursor bit is set
exactly when the cursor `datum_reader` is held, no other cursor is ever held,
and a non-null plan pointer is a held plan. -/
def FlagsTellHeld (st : Tracked) : Prop :=
  (st.self.flags &&& DESERIALIZER_READER_OK ≠ 0 →
    Resource.cursor st.self.datum_reader ∈ st.held) ∧
  (st.self.iface ≠ 0 → Resource.plan st.self.iface ∈ st.held) ∧
  (∀ p, Resource.cursor p ∈ st.held →
    st.self.flags &&& DESERIALIZER_READER_OK ≠ 0 ∧ p = st.self.datum_reader)

/-- The calls of a constructor run that got as far as asking for the cursor. -/
def initCalls {V : Type} (lib : AvroLib V) (text : List Nat) : List Call :=
  [Call.PyArg_ParseTupleAndKeywords true,
   Call.avro_schema_from_json text (lib.avro_schema_from_json text).1
     (lib.avro_schema_from_json text).2,
   Call.malloc (strlen text + 1) (lib.malloc (strlen text + 1)),
   Call.strncpy (lib.malloc (strlen text + 1)) (strncpy text (strlen text + 1)),
   Call.avro_generic_class_from_schema (lib.avro_schema_from_json text).2
     (lib.avro_generic_class_from_schema (lib.avro_schema_from_json text).2),
   Call.avro_reader_memory lib.avro_reader_memory]

/-- The session of a constructor run that obtained all four resources. -/
def initSelf {V : Type} (lib : AvroLib V) (ty : Ptr) (text : List Nat) (types : Ptr) :
    AvroDeserializer :=
  { ob_type := ty
    schema := (lib.avro_schema_from_json text).2
    iface := lib.avro_generic_class_from_schema (lib.avro_schema_from_json text).2
    datum_reader := lib.avro_reader_memory
    flags := DESERIALIZER_SCHEMA_OK ||| DESERIALIZER_READER_OK
    info_types := types
    schema_json := some ⟨lib.malloc (strlen text + 1), strncpy text (strlen text + 1)⟩ }

/-- A small library: a schema text parses when it opens with a brace (byte
123); a read succeeds, consuming the buffer, when the buffer is not empty. -/
def sampleLib : AvroLib (List Nat) where
  avro_schema_from_json := fun t => if t.head? = some 123 then (0, 10) else (22, 0)
  avro_generic_class_from_schema := fun s => if s = 0 then 0 else s + 10
  avro_reader_memory := 30
  malloc := fun _ => 40
  get_avro_types_type := 50
  PyObject_CallFunctionObjArgs := fun _ => 60
  avro_generic_value_new := fun _ => (0, [])
  avro_value_read := fun c _ =>
    if c.read < c.len then (0, { c with read := c.len }, c.buf.drop c.read) else (22, c, [])
  avro_value_read_with_resolution := fun c _ _ =>
    if c.read < c.len then (0, { c with read := c.len }, c.buf.drop c.read) else (22, c, [])
  avro_to_python := fun _ _ => 70

/-- The library `sampleLib`, except that creating the type registry fails. -/
def sampleLibNoRegistry : AvroLib (List Nat) :=
  { sampleLib with PyObject_CallFunctionObjArgs := fun _ => 0 }

/-- Readers before any allocation. -/
def sampleHeap : Heap := fun _ => ⟨[], 0, 0⟩

/-- The schema text `{}` and no `types` argument. -/
def sampleArgs : InitArgs := { schema := some [123, 125], types := none }

/-- The schema text `{}` and a `types` argument that is a plain truthy object
(not of the registry type `50`). -/
def sampleArgsTracking : InitArgs :=
  { schema := some [123, 125], types := some ⟨7, 8, 1⟩ }

/-- The schema text `{}` and a `types` argument that is an existing registry
object at address `9` (its type is the registry type `50`). -/
def sampleArgsShared : InitArgs :=
  { schema := some [123, 125], types := some ⟨9, 50, 1⟩ }

/-- What the constructor leaves for `sampleLibNoRegistry` and
`sampleArgsTracking`: all four resources are held, then the registry cannot be
created. -/
def sampleRegistryFailure : InitResult :=
  ⟨-1, initSelf sampleLibNoRegistry 1 [123, 125, 0] 0,
    Function.update sampleHeap 30 ⟨[], 0, 0⟩,
    initCalls sampleLibNoRegistry [123, 125, 0] ++ [.PyObject_CallFunctionObjArgs 50 0]⟩

/-- What the constructor leaves for `sampleLib` and `sampleArgs`. -/
def sampleSuccess : InitResult :=
  ⟨0, initSelf sampleLib 1 [123, 125, 0] 0, Function.update sampleHeap 30 ⟨[], 0, 0⟩,
    initCalls sampleLib [123, 125, 0]⟩

/-- What the constructor leaves for `sampleLib` and `sampleArgsTracking`. -/
def sampleSuccessTracking : InitResult :=
  ⟨0, initSelf sampleLib 1 [123, 125, 0] 60, Function.update sampleHeap 30 ⟨[], 0, 0⟩,
    initCalls sampleLib [123, 125, 0] ++
      [.PyObject_CallFunctionObjArgs 50 60, .declare_types 60 10]⟩

/-- The registries a constructor run created, in order. -/
def registryCreated (tr : List Call) : List Ptr :=
  tr.filterMap fun c =>
    match c with
    | .PyObject_CallFunctionObjArgs _ ret => some ret
    | _ => none

/-- The resources of the three kinds named cursor, plan and schema. -/
def handlesOnly (rs : List Resource) : List Resource :=
  rs.filter fun x =>
    match x with
    | .schemaText _ => false
    | _ => true

theorem and_bitNot32_reader (f : Nat) :
    (f &&& bitNot32 DESERIALIZER_READER_OK) &&& DESERIALIZER_READER_OK = 0 := by
  rw [Nat.and_assoc]
  have h : bitNot32 DESERIALIZER_READER_OK &&& DESERIALIZER_READER_OK = 0 := by decide
  rw [h]; simp

theorem and_bitNot32_schema (f : Nat) :
    (f &&& bitNot32 DESERIALIZER_SCHEMA_OK) &&& DESERIALIZER_SCHEMA_OK = 0 := by
  rw [Nat.and_assoc]
  have h : bitNot32 DESERIALIZER_SCHEMA_OK &&& DESERIALIZER_SCHEMA_OK = 0 := by decide
  rw [h]; simp

theorem and_bitNot32_keep (f m k : Nat) (h : f &&& k = 0) : (f &&& m) &&& k = 0 := by
  rw [Nat.and_assoc, Nat.and_comm m k, ← Nat.and_assoc, h]; simp

/-- A session that holds nothing is left as it is by `do_close`, which then
calls nothing. -/
theorem do_close_of_released (s : AvroDeserializer)
    (h1 : s.flags &&& DESERIALIZER_READER_OK = 0)
    (h2 : s.flags &&& DESERIALIZER_SCHEMA_OK = 0)
    (h3 : s.schema_json = none) (h4 : s.iface = 0) :
    do_close s = ⟨0, s, []⟩ := by
  simp [do_close, h1, h2, h3, h4]

theorem and_bitNot32_reader_schema (f : Nat) :
    (f &&& bitNot32 DESERIALIZER_READER_OK) &&& DESERIALIZER_SCHEMA_OK
      = f &&& DESERIALIZER_SCHEMA_OK := by
  rw [Nat.and_assoc]
  have h : bitNot32 DESERIALIZER_READER_OK &&& DESERIALIZER_SCHEMA_OK
      = DESERIALIZER_SCHEMA_OK := by decide
  rw [h]

theorem and_bitNot32_schema_reader (f : Nat) :
    (f &&& bitNot32 DESERIALIZER_SCHEMA_OK) &&& DESERIALIZER_READER_OK
      = f &&& DESERIALIZER_READER_OK := by
  rw [Nat.and_assoc]
  have h : bitNot32 DESERIALIZER_SCHEMA_OK &&& DESERIALIZER_READER_OK
      = DESERIALIZER_READER_OK := by decide
  rw [h]

/-- Whatever the session, after `do_close` it holds nothing. -/
theorem do_close_released (s : AvroDeserializer) :
    (do_close s).self.flags &&& DESERIALIZER_READER_OK = 0 ∧
    (do_close s).self.flags &&& DESERIALIZER_SCHEMA_OK = 0 ∧
    (do_close s).self.schema_json = none ∧ (do_close s).self.iface = 0 := by
  unfold do_close
  by_cases h1 : s.flags &&& DESERIALIZER_READER_OK = 0 <;>
  by_cases h2 : s.flags &&& DESERIALIZER_SCHEMA_OK = 0 <;>
  cases h3 : s.schema_json <;>
  by_cases h4 : s.iface = 0 <;>
  simp [h1, h2, h3, h4, and_bitNot32_reader, and_bitNot32_schema,
    and_bitNot32_reader_schema, and_bitNot32_schema_reader]

/-- Running `do_close` on what `do_close` left changes nothing and calls
nothing. -/
theorem do_close_do_close (s : AvroDeserializer) :
    do_close (do_close s).self = ⟨0, (do_close s).self, []⟩ := by
  obtain ⟨h1, h2, h3, h4⟩ := do_close_released s
  exact do_close_of_released _ h1 h2 h3 h4

/-! ### The constructor followed by `do_close` -/

/-- Every way a constructor run on a fresh session can end, exit by exit. -/
theorem init_fresh_cases {V : Type} (lib : AvroLib V) (ty : Ptr) (heap : Heap)
    (args : InitArgs) (r : InitResult)
    (hinit : AvroDeserializer_init lib (fresh ty) heap args = some r) :
    (parseInitArgs args = none ∧
      r = ⟨-1, fresh ty, heap, [.PyArg_ParseTupleAndKeywords false]⟩) ∨
    ∃ text types, parseInitArgs args = some (text, types) ∧
      ((((lib.avro_schema_from_json text).1 ≠ 0 ∨ (lib.avro_schema_from_json text).2 = 0) ∧
        r = ⟨-1, { fresh ty with schema := (lib.avro_schema_from_json text).2 }, heap,
              (initCalls lib text).take 2 ++ [.PyErr_Format .IOError]⟩) ∨
       ((lib.avro_schema_from_json text).1 = 0 ∧ (lib.avro_schema_from_json text).2 ≠ 0 ∧
        lib.malloc (strlen text + 1) ≠ 0 ∧
        ((lib.avro_generic_class_from_schema (lib.avro_schema_from_json text).2 = 0 ∧
          r = ⟨-1, { initSelf lib ty text 0 with
                      iface := 0, datum_reader := 0, flags := DESERIALIZER_SCHEMA_OK },
                heap, (initCalls lib text).take 5 ++ [.PyErr_SetString .IOError]⟩) ∨
         (lib.avro_generic_class_from_schema (lib.avro_schema_from_json text).2 ≠ 0 ∧
          lib.avro_reader_memory = 0 ∧
          r = ⟨-1, { initSelf lib ty text 0 with
                      datum_reader := 0, flags := DESERIALIZER_SCHEMA_OK },
                heap, initCalls lib text ++ [.PyErr_NoMemory]⟩) ∨
         (lib.avro_generic_class_from_schema (lib.avro_schema_from_json text).2 ≠ 0 ∧
          lib.avro_reader_memory ≠ 0 ∧
          ((∃ o, types = some o ∧ o.isTrue ≠ 0 ∧ o.ob_type = lib.get_avro_types_type ∧
              r = ⟨0, initSelf lib ty text o.addr,
                    Function.update heap lib.avro_reader_memory ⟨[], 0, 0⟩,
                    initCalls lib text ++ [.Py_INCREF o.addr]⟩) ∨
           (∃ o, types = some o ∧ o.isTrue ≠ 0 ∧ o.ob_type ≠ lib.get_avro_types_type ∧
              lib.PyObject_CallFunctionObjArgs lib.get_avro_types_type = 0 ∧
              r = ⟨-1, initSelf lib ty text 0,
                    Function.update heap lib.avro_reader_memory ⟨[], 0, 0⟩,
                    initCalls lib text ++
                      [.PyObject_CallFunctionObjArgs lib.get_avro_types_type 0]⟩) ∨
           (∃ o, types = some o ∧ o.isTrue ≠ 0 ∧ o.ob_type ≠ lib.get_avro_types_type ∧
              lib.PyObject_CallFunctionObjArgs lib.get_avro_types_type ≠ 0 ∧
              r = ⟨0, initSelf lib ty text
                        (lib.PyObject_CallFunctionObjArgs lib.get_avro_types_type),
                    Function.update heap lib.avro_reader_memory ⟨[], 0, 0⟩,
                    initCalls lib text ++
                      [.PyObject_CallFunctionObjArgs lib.get_avro_types_type
                         (lib.PyObject_CallFunctionObjArgs lib.get_avro_types_type),
                       .declare_types
                         (lib.PyObject_CallFunctionObjArgs lib.get_avro_types_type)
                         (lib.avro_schema_from_json text).2]⟩) ∨
           ((types = none ∨ ∃ o, types = some o ∧ o.isTrue = 0) ∧
              r = ⟨0, initSelf lib ty text 0,
                    Function.update heap lib.avro_reader_memory ⟨[], 0, 0⟩,
                    initCalls lib text⟩)))))) := by
  unfold AvroDeserializer_init at hinit
  cases hp : parseInitArgs args with
  | none =>
    left
    simp only [hp, Option.some.injEq] at hinit
    exact ⟨rfl, hinit.symm⟩
  | some pr =>
    obtain ⟨text, types⟩ := pr
    right
    refine ⟨text, types, rfl, ?_⟩
    simp only [hp] at hinit
    by_cases h1 : (lib.avro_schema_from_json text).1 ≠ 0 ∨ (lib.avro_schema_from_json text).2 = 0
    · left
      rw [if_pos h1] at hinit
      simp only [Option.some.injEq] at hinit
      exact ⟨h1, hinit.symm⟩
    · right
      rw [if_neg h1] at hinit
      have h1a : (lib.avro_schema_from_json text).1 = 0 := by
        by_contra h; exact h1 (Or.inl h)
      have h1b : (lib.avro_schema_from_json text).2 ≠ 0 := fun h => h1 (Or.inr h)
      by_cases h2 : lib.malloc (strlen text + 1) = 0
      · rw [if_pos h2] at hinit
        exact absurd hinit (by simp)
      rw [if_neg h2] at hinit
      refine ⟨h1a, h1b, h2, ?_⟩
      by_cases h3 : lib.avro_generic_class_from_schema (lib.avro_schema_from_json text).2 = 0
      · left
        rw [if_pos h3] at hinit
        simp only [Option.some.injEq] at hinit
        refine ⟨h3, ?_⟩
        rw [← hinit]
        simp [initSelf, initCalls, fresh, h3]
      right
      rw [if_neg h3] at hinit
      by_cases h4 : lib.avro_reader_memory = 0
      · left
        rw [if_pos h4] at hinit
        simp only [Option.some.injEq] at hinit
        refine ⟨h3, h4, ?_⟩
        rw [← hinit]
        simp [initSelf, initCalls, fresh, h4]
      right
      rw [if_neg h4] at hinit
      refine ⟨h3, h4, ?_⟩
      cases types with
      | none =>
        right; right; right
        simp only [Option.some.injEq] at hinit
        refine ⟨Or.inl rfl, ?_⟩
        rw [← hinit]
        simp [initSelf, initCalls, fresh, h4]
      | some o =>
        simp only [] at hinit
        by_cases h5 : o.isTrue ≠ 0
        · rw [if_pos h5] at hinit
          by_cases h6 : o.ob_type = lib.get_avro_types_type
          · left
            rw [if_pos h6] at hinit
            simp only [Option.some.injEq] at hinit
            refine ⟨o, rfl, h5, h6, ?_⟩
            rw [← hinit]
            simp [initSelf, initCalls, fresh, h4]
          · right
            rw [if_neg h6] at hinit
            by_cases h7 : lib.PyObject_CallFunctionObjArgs lib.get_avro_types_type = 0
            · left
              rw [if_pos h7] at hinit
              simp only [Option.some.injEq] at hinit
              refine ⟨o, rfl, h5, h6, h7, ?_⟩
              rw [← hinit]
              simp [initSelf, initCalls, fresh, h4, h7]
            · right; left
              rw [if_neg h7] at hinit
              simp only [Option.some.injEq] at hinit
              refine ⟨o, rfl, h5, h6, h7, ?_⟩
              rw [← hinit]
              simp [initSelf, initCalls, fresh, h4]
        · right; right; right
          rw [if_neg h5] at hinit
          simp only [Option.some.injEq] at hinit
          refine ⟨Or.inr ⟨o, rfl, by simpa using h5⟩, ?_⟩
          rw [← hinit]
          simp [initSelf, initCalls, fresh, h4]

/-- What a successful parse of the constructor arguments hands over. -/
theorem parseInitArgs_some (a : InitArgs) (text : List Nat) (types : Option PyObj)
    (h : parseInitArgs a = some (text, types)) :
    types = a.types ∧ ∃ t, a.schema = some t ∧ 0 ∉ t ∧ text = t ++ [0] := by
  unfold parseInitArgs at h
  cases hs : a.schema with
  | none => simp [hs] at h
  | some t =>
    simp only [hs] at h
    by_cases h0 : 0 ∈ t
    · simp [h0] at h
    · simp only [h0, if_false, Option.some.injEq, Prod.mk.injEq] at h
      exact ⟨h.2.symm, t, rfl, h0, h.1.symm⟩

/-! ### The schema text -/

theorem strlen_text (t : List Nat) (h : 0 ∉ t) : strlen (t ++ [0]) = t.length := by
  induction t with
  | nil => simp [strlen]
  | cons c cs ih =>
    have hc : c ≠ 0 := fun e => h (by simp [e])
    have hcs : 0 ∉ cs := fun e => h (by simp [e])
    simp [strlen, hc, ih hcs]

theorem strncpy_text (t : List Nat) (h : 0 ∉ t) :
    strncpy (t ++ [0]) (t.length + 1) = t ++ [0] := by
  induction t with
  | nil => simp [strncpy]
  | cons c cs ih =>
    have hc : c ≠ 0 := fun e => h (by simp [e])
    have hcs : 0 ∉ cs := fun e => h (by simp [e])
    simp [strncpy, hc, ih hcs]

theorem cstring_text (t : List Nat) (h : 0 ∉ t) : cstring (t ++ [0]) = t := by
  induction t with
  | nil => simp [cstring]
  | cons c cs ih =>
    have hc : c ≠ 0 := fun e => h (by simp [e])
    have hcs : 0 ∉ cs := fun e => h (by simp [e])
    simp [cstring, hc, ih hcs]

/-- The block the constructor fills from a parsed schema text reads back as
that text. -/
theorem cstring_strncpy_text (t : List Nat) (h : 0 ∉ t) :
    cstring (strncpy (t ++ [0]) (strlen (t ++ [0]) + 1)) = t := by
  rw [strlen_text t h, strncpy_text t h, cstring_text t h]

/-! ### `deserialize` leaves the session fields alone -/

theorem deserialize_self {V : Type} (lib : AvroLib V) (s : AvroDeserializer) (heap : Heap)
    (a : DeserializeArgs) : (AvroDeserializer_deserialize lib s heap a).self = s := by
  unfold AvroDeserializer_deserialize
  cases parseDeserializeArgs a with
  | none => rfl
  | some pr =>
    obtain ⟨buffer, size, w⟩ := pr
    cases w <;> simp only [] <;> split_ifs <;> rfl

theorem runDeserialize_self {V : Type} (lib : AvroLib V) (calls : List DeserializeArgs) :
    ∀ st : AvroDeserializer × Heap, (runDeserialize lib st calls).1 = st.1 := by
  induction calls with
  | nil => intro st; rfl
  | cons a as ih =>
    intro st
    simp only [runDeserialize, List.foldl_cons]
    have h := ih ((AvroDeserializer_deserialize lib st.1 st.2 a).self,
                  (AvroDeserializer_deserialize lib st.1 st.2 a).heap)
    simp only [runDeserialize] at h
    rw [h]
    exact deserialize_self lib st.1 st.2 a

/-- C1: for every state a single constructor run leaves on a fresh session
(whether it succeeded or failed, and wherever it failed), neither a first nor a
second `do_close` reports an error, the second leaves the state of the first
unchanged and releases no resource (it issues no call at all); the same holds
for the method `close`, whose second run only takes its reference to `None`. -/
theorem close_idempotent {V : Type} (lib : AvroLib V) (ty : Ptr) (heap : Heap)
    (args : InitArgs) (r : InitResult)
    (_hinit : AvroDeserializer_init lib (fresh ty) heap args = some r) :
    (do_close r.self).rval = 0 ∧
    (do_close (do_close r.self).self).rval = 0 ∧
    (do_close (do_close r.self).self).self = (do_close r.self).self ∧
    (do_close (do_close r.self).self).trace = [] ∧
    releases (do_close (do_close r.self).self).trace = [] ∧
    (AvroDeserializer_close (AvroDeserializer_close r.self).self).self
      = (AvroDeserializer_close r.self).self ∧
    releases (AvroDeserializer_close (AvroDeserializer_close r.self).self).trace = [] := by
  have h := do_close_do_close r.self
  refine ⟨rfl, rfl, ?_, ?_, ?_, ?_, ?_⟩
  · rw [h]
  · rw [h]
  · rw [h]; rfl
  · simp only [AvroDeserializer_close]; rw [h]
  · simp only [AvroDeserializer_close]; rw [h]; rfl

/-- Witness of C1: the constructor run of `sampleLib` on the text `{}`. -/
theorem close_idempotent_witness :
    AvroDeserializer_init sampleLib (fresh 1) sampleHeap sampleArgs = some sampleSuccess ∧
    (do_close sampleSuccess.self).rval = 0 ∧
    (do_close (do_close sampleSuccess.self).self).rval = 0 ∧
    (do_close (do_close sampleSuccess.self).self).self = (do_close sampleSuccess.self).self ∧
    (do_close (do_close sampleSuccess.self).self).trace = [] ∧
    releases (do_close (do_close sampleSuccess.self).self).trace = [] ∧
    (AvroDeserializer_close (AvroDeserializer_close sampleSuccess.self).self).self
      = (AvroDeserializer_close sampleSuccess.self).self ∧
    releases (AvroDeserializer_close (AvroDeserializer_close sampleSuccess.self).self).trace
      = [] :=
  ⟨rfl, close_idempotent sampleLib 1 sampleHeap sampleArgs sampleSuccess rfl⟩

/-- C2: when a constructor run on a fresh session returns -1, at whichever
exit, the `do_close` that follows releases exactly the resources the run had
acquired: the released resources are a rearrangement of the acquired ones, and
none is released twice. -/
theorem init_failure_closable {V : Type} (lib : AvroLib V) (ty : Ptr) (heap : Heap)
    (args : InitArgs) (r : InitResult)
    (hinit : AvroDeserializer_init lib (fresh ty) heap args = some r)
    (hfail : r.rval = -1) :
    List.Perm (releases (do_close r.self).trace) (acquisitions r.trace) ∧
    (releases (do_close r.self).trace).Nodup := by
  rcases init_fresh_cases lib ty heap args r hinit with
    ⟨_, rfl⟩ | ⟨text, types, _, h⟩
  · simp [do_close, fresh, releases, acquisitions, acquired]
  · rcases h with ⟨h1, rfl⟩ | ⟨h1a, h1b, h2, h⟩
    · have h0 : ¬((lib.avro_schema_from_json text).1 = 0 ∧
          (lib.avro_schema_from_json text).2 ≠ 0) := by
        rintro ⟨ha, hb⟩
        rcases h1 with h1 | h1
        · exact h1 ha
        · exact hb h1
      simp [do_close, fresh, releases, acquisitions, initCalls, acquired, released, h0]
    · rcases h with ⟨h3, rfl⟩ | ⟨h3, h4, rfl⟩ | ⟨h3, h4, h⟩
      · simp [do_close, initSelf, releases, acquisitions, initCalls, acquired, released,
          DESERIALIZER_SCHEMA_OK, DESERIALIZER_READER_OK, bitNot32, h1a, h1b, h2, h3]
      · simp [do_close, initSelf, releases, acquisitions, initCalls, acquired, released,
          DESERIALIZER_SCHEMA_OK, DESERIALIZER_READER_OK, bitNot32, h1a, h1b, h2, h3, h4]
      · rcases h with ⟨o, _, _, _, rfl⟩ | ⟨o, _, _, _, h7, rfl⟩ | ⟨o, _, _, _, _, rfl⟩ |
          ⟨_, rfl⟩
        · exact absurd hfail (by simp)
        · simp [do_close, initSelf, releases, acquisitions, initCalls, acquired, released,
            DESERIALIZER_SCHEMA_OK, DESERIALIZER_READER_OK, bitNot32, h1a, h1b, h2, h3, h4]
          exact @List.perm_append_comm Resource [Resource.cursor lib.avro_reader_memory] _
        · exact absurd hfail (by simp)
        · exact absurd hfail (by simp)

/-- Witness of C2: with `sampleLibNoRegistry` the constructor fails at its last
exit, holding all four resources. -/
theorem init_failure_closable_witness :
    AvroDeserializer_init sampleLibNoRegistry (fresh 1) sampleHeap sampleArgsTracking
      = some sampleRegistryFailure ∧
    sampleRegistryFailure.rval = -1 ∧
    List.Perm (releases (do_close sampleRegistryFailure.self).trace)
      (acquisitions sampleRegistryFailure.trace) ∧
    (releases (do_close sampleRegistryFailure.self).trace).Nodup :=
  ⟨rfl, rfl, init_failure_closable sampleLibNoRegistry 1 sampleHeap sampleArgsTracking
    sampleRegistryFailure rfl rfl⟩

/-- C7, as stated, fails: on the session built by `sampleLib` from the text
`{}`, `do_close` releases cursor, schema, schema text, plan, while the reverse
of the acquisition order is cursor, plan, schema text, schema; the two orders
differ also when the schema text is left out. -/
theorem close_order_refuted :
    (AvroDeserializer_init sampleLib (fresh 1) sampleHeap sampleArgs).map
        (fun r => (r.rval, releases (do_close r.self).trace))
      = some (0, [.cursor 30, .schema 10, .schemaText 40, .plan 20]) ∧
    (AvroDeserializer_init sampleLib (fresh 1) sampleHeap sampleArgs).map
        (fun r => (acquisitions r.trace).reverse)
      = some [.cursor 30, .plan 20, .schemaText 40, .schema 10] ∧
    (AvroDeserializer_init sampleLib (fresh 1) sampleHeap sampleArgs).map
        (fun r => releases (do_close r.self).trace)
      ≠ (AvroDeserializer_init sampleLib (fresh 1) sampleHeap sampleArgs).map
        (fun r => (acquisitions r.trace).reverse) ∧
    (AvroDeserializer_init sampleLib (fresh 1) sampleHeap sampleArgs).map
        (fun r => handlesOnly (releases (do_close r.self).trace))
      ≠ (AvroDeserializer_init sampleLib (fresh 1) sampleHeap sampleArgs).map
        (fun r => (handlesOnly (acquisitions r.trace)).reverse) := by
  refine ⟨by decide, by decide, by decide, by decide⟩

/-- C7, amended: for every session a successful constructor run built from a
fresh one, the run acquired schema, schema text, plan, cursor in this order, and
`do_close` releases the cursor first, then the schema, then the schema text,
then the plan. -/
theorem close_order_amended {V : Type} (lib : AvroLib V) (ty : Ptr) (heap : Heap)
    (args : InitArgs) (r : InitResult)
    (hinit : AvroDeserializer_init lib (fresh ty) heap args = some r)
    (hok : r.rval = 0) :
    ∃ b, r.self.schema_json = some b ∧
      acquisitions r.trace
        = [.schema r.self.schema, .schemaText b.addr, .plan r.self.iface,
           .cursor r.self.datum_reader] ∧
      releases (do_close r.self).trace
        = [.cursor r.self.datum_reader, .schema r.self.schema, .schemaText b.addr,
           .plan r.self.iface] := by
  rcases init_fresh_cases lib ty heap args r hinit with
    ⟨_, rfl⟩ | ⟨text, types, _, h⟩
  · exact absurd hok (by simp)
  · rcases h with ⟨h1, rfl⟩ | ⟨h1a, h1b, h2, h⟩
    · exact absurd hok (by simp)
    · rcases h with ⟨h3, rfl⟩ | ⟨h3, h4, rfl⟩ | ⟨h3, h4, h⟩
      · exact absurd hok (by simp)
      · exact absurd hok (by simp)
      · rcases h with ⟨o, _, _, _, rfl⟩ | ⟨o, _, _, _, h7, rfl⟩ | ⟨o, _, _, _, _, rfl⟩ |
          ⟨_, rfl⟩
        · simp [do_close, initSelf, releases, acquisitions, initCalls, acquired, released,
            DESERIALIZER_SCHEMA_OK, DESERIALIZER_READER_OK, bitNot32, h1a, h1b, h2, h3, h4]
        · exact absurd hok (by simp)
        · simp [do_close, initSelf, releases, acquisitions, initCalls, acquired, released,
            DESERIALIZER_SCHEMA_OK, DESERIALIZER_READER_OK, bitNot32, h1a, h1b, h2, h3, h4]
        · simp [do_close, initSelf, releases, acquisitions, initCalls, acquired, released,
            DESERIALIZER_SCHEMA_OK, DESERIALIZER_READER_OK, bitNot32, h1a, h1b, h2, h3, h4]

/-- Witness of C7 amended: the session built by `sampleLib` from the text `{}`. -/
theorem close_order_amended_witness :
    AvroDeserializer_init sampleLib (fresh 1) sampleHeap sampleArgs = some sampleSuccess ∧
    sampleSuccess.rval = 0 ∧
    ∃ b, sampleSuccess.self.schema_json = some b ∧
      acquisitions sampleSuccess.trace
        = [.schema sampleSuccess.self.schema, .schemaText b.addr,
           .plan sampleSuccess.self.iface, .cursor sampleSuccess.self.datum_reader] ∧
      releases (do_close sampleSuccess.self).trace
        = [.cursor sampleSuccess.self.datum_reader, .schema sampleSuccess.self.schema,
           .schemaText b.addr, .plan sampleSuccess.self.iface] :=
  ⟨rfl, rfl, close_order_amended sampleLib 1 sampleHeap sampleArgs sampleSuccess rfl rfl⟩

/-- C9, as stated, fails: `sampleArgsShared` asks for type tracking with an
existing registry object at address 9; the constructor succeeds, creates no
registry, and the session holds the caller's object 9 itself. -/
theorem registry_at_init_refuted :
    (AvroDeserializer_init sampleLib (fresh 1) sampleHeap sampleArgsShared).map
        (fun r => (r.rval, r.self.info_types, registryCreated r.trace,
                   decide (Call.Py_INCREF 9 ∈ r.trace)))
      = some (0, 9, [], true) ∧
    sampleArgsShared.types.map (fun o => (o.addr, decide (o.isTrue ≠ 0))) = some (9, true) := by
  refine ⟨by decide, by decide⟩

/-- C9, amended: after every successful constructor run on a fresh session,
(1) if `types` is given, is truthy (`PyObject_IsTrue` does not answer 0) and
is already of the registry type, the session holds that very object, on which
the run took exactly one more reference, and the run created no registry; (2) if
`types` is given, is truthy and is of another type, the session holds the one
registry the run created, and the last call of the run is `declare_types` on
that registry with the reader schema;
(3) if `types` is absent or falsy, `info.types` is `NULL`, the member `types`
reads `None`, and no registry was created. -/
theorem registry_at_init_amended {V : Type} (lib : AvroLib V) (ty : Ptr) (heap : Heap)
    (args : InitArgs) (r : InitResult)
    (hinit : AvroDeserializer_init lib (fresh ty) heap args = some r)
    (hok : r.rval = 0) :
    (∀ o, args.types = some o → o.isTrue ≠ 0 → o.ob_type = lib.get_avro_types_type →
      r.self.info_types = o.addr ∧ Call.Py_INCREF o.addr ∈ r.trace ∧
      registryCreated r.trace = [] ∧ r.trace.count (Call.Py_INCREF o.addr) = 1) ∧
    (∀ o, args.types = some o → o.isTrue ≠ 0 → o.ob_type ≠ lib.get_avro_types_type →
      r.self.info_types ≠ 0 ∧ registryCreated r.trace = [r.self.info_types] ∧
      r.trace.getLast? = some (Call.declare_types r.self.info_types r.self.schema)) ∧
    ((args.types = none ∨ ∃ o, args.types = some o ∧ o.isTrue = 0) →
      r.self.info_types = 0 ∧ member_types r.self = none ∧ registryCreated r.trace = []) := by
  rcases init_fresh_cases lib ty heap args r hinit with
    ⟨_, rfl⟩ | ⟨text, types, hp, h⟩
  · exact absurd hok (by simp)
  · obtain ⟨ht, -⟩ := parseInitArgs_some args text types hp
    subst ht
    rcases h with ⟨h1, rfl⟩ | ⟨h1a, h1b, h2, h⟩
    · exact absurd hok (by simp)
    · rcases h with ⟨h3, rfl⟩ | ⟨h3, h4, rfl⟩ | ⟨h3, h4, h⟩
      · exact absurd hok (by simp)
      · exact absurd hok (by simp)
      · rcases h with ⟨o, ho, h5, h6, rfl⟩ | ⟨o, _, _, _, h7, rfl⟩ |
          ⟨o, ho, h5, h6, h7, rfl⟩ | ⟨hn, rfl⟩
        · refine ⟨?_, ?_, ?_⟩
          · intro o2 ho2 _ _
            rw [ho] at ho2; cases ho2
            simp [initSelf, initCalls, registryCreated]
          · intro o2 ho2 _ hne
            rw [ho] at ho2; cases ho2
            exact absurd h6 hne
          · rintro (hn | ⟨o2, ho2, hz⟩)
            · rw [ho] at hn; cases hn
            · rw [ho] at ho2; cases ho2
              exact absurd hz h5
        · exact absurd hok (by simp)
        · refine ⟨?_, ?_, ?_⟩
          · intro o2 ho2 _ he
            rw [ho] at ho2; cases ho2
            exact absurd he h6
          · intro o2 ho2 _ _
            simp [initSelf, initCalls, registryCreated, h7]
          · rintro (hn | ⟨o2, ho2, hz⟩)
            · rw [ho] at hn; cases hn
            · rw [ho] at ho2; cases ho2
              exact absurd hz h5
        · refine ⟨?_, ?_, ?_⟩
          · intro o2 ho2 ht _
            rcases hn with hn | ⟨o3, ho3, hz⟩
            · rw [hn] at ho2; cases ho2
            · rw [ho3] at ho2; cases ho2
              exact absurd hz ht
          · intro o2 ho2 ht _
            rcases hn with hn | ⟨o3, ho3, hz⟩
            · rw [hn] at ho2; cases ho2
            · rw [ho3] at ho2; cases ho2
              exact absurd hz ht
          · intro _
            simp [initSelf, initCalls, registryCreated, member_types]

/-- Witness of C9 amended: `sampleLib` with a truthy `types` that is not a
registry; the session holds the registry 60 the constructor created. -/
theorem registry_at_init_amended_witness :
    AvroDeserializer_init sampleLib (fresh 1) sampleHeap sampleArgsTracking
      = some sampleSuccessTracking ∧
    sampleSuccessTracking.rval = 0 ∧
    sampleSuccessTracking.self.info_types ≠ 0 ∧
    registryCreated sampleSuccessTracking.trace = [sampleSuccessTracking.self.info_types] ∧
    sampleSuccessTracking.trace.getLast?
      = some (Call.declare_types sampleSuccessTracking.self.info_types
                sampleSuccessTracking.self.schema) :=
  ⟨rfl, rfl, (registry_at_init_amended sampleLib 1 sampleHeap sampleArgsTracking
    sampleSuccessTracking rfl rfl).2.1 ⟨7, 8, 1⟩ rfl (by decide) (by decide)⟩

/-- C3: for every schema text `t` on which the constructor succeeds (on a fresh
session of class `ty`, with any `types` argument), and after any run of
`deserialize` calls on the session that has not been closed, `__reduce__` gives
the class `ty` and the one-element tuple holding exactly `t`. -/
theorem reduce_round_trip {V : Type} (lib : AvroLib V) (ty : Ptr) (heap : Heap)
    (args : InitArgs) (t : List Nat) (r : InitResult) (calls : List DeserializeArgs)
    (hargs : args.schema = some t)
    (hinit : AvroDeserializer_init lib (fresh ty) heap args = some r)
    (hok : r.rval = 0) :
    AvroDeserializer_reduce (runDeserialize lib (r.self, r.heap) calls).1
      = ⟨ty, some t⟩ := by
  rw [runDeserialize_self]
  rcases init_fresh_cases lib ty heap args r hinit with
    ⟨_, rfl⟩ | ⟨text, types, hp, h⟩
  · exact absurd hok (by simp)
  · obtain ⟨-, t2, ht2, h0, rfl⟩ := parseInitArgs_some args text types hp
    rw [hargs] at ht2; cases ht2
    have hrt := cstring_strncpy_text t h0
    rcases h with ⟨h1, rfl⟩ | ⟨h1a, h1b, h2, h⟩
    · exact absurd hok (by simp)
    · rcases h with ⟨h3, rfl⟩ | ⟨h3, h4, rfl⟩ | ⟨h3, h4, h⟩
      · exact absurd hok (by simp)
      · exact absurd hok (by simp)
      · rcases h with ⟨o, _, _, _, rfl⟩ | ⟨o, _, _, _, h7, rfl⟩ | ⟨o, _, _, _, _, rfl⟩ |
          ⟨_, rfl⟩
        · simp [AvroDeserializer_reduce, initSelf, hrt]
        · exact absurd hok (by simp)
        · simp [AvroDeserializer_reduce, initSelf, hrt]
        · simp [AvroDeserializer_reduce, initSelf, hrt]

/-- Witness of C3: the text `{}`, type tracking requested, and two `deserialize`
calls (one succeeding, one on an empty buffer) before `__reduce__`. -/
theorem reduce_round_trip_witness :
    sampleArgsTracking.schema = some [123, 125] ∧
    AvroDeserializer_init sampleLib (fresh 1) sampleHeap sampleArgsTracking
      = some sampleSuccessTracking ∧
    sampleSuccessTracking.rval = 0 ∧
    AvroDeserializer_reduce
        (runDeserialize sampleLib (sampleSuccessTracking.self, sampleSuccessTracking.heap)
          [⟨some [2, 4], none⟩, ⟨some [], none⟩]).1
      = ⟨1, some [123, 125]⟩ :=
  ⟨rfl, rfl, rfl, reduce_round_trip sampleLib 1 sampleHeap sampleArgsTracking [123, 125]
    sampleSuccessTracking [⟨some [2, 4], none⟩, ⟨some [], none⟩] rfl rfl rfl⟩

/-! ### Claims about `deserialize` -/

/-- C5 does not hold of the code: on the session of `sampleSuccess`, a call
with the buffer `[2, 4]` and the writer schema text `xx`, which the library
refuses (`avro_schema_from_json` returns 22), goes on with the plan derived
from the unset schema, overwrites the 22 with the 0 of the read, raises
nothing, and returns the converted object 70. -/
theorem swallowed_writer_schema_error :
    AvroDeserializer_init sampleLib (fresh 1) sampleHeap sampleArgs = some sampleSuccess ∧
    sampleLib.avro_schema_from_json [120, 120, 0] = (22, 0) ∧
    (AvroDeserializer_deserialize sampleLib sampleSuccess.self sampleSuccess.heap
      ⟨some [2, 4], some [120, 120]⟩).ret = 70 ∧
    (AvroDeserializer_deserialize sampleLib sampleSuccess.self sampleSuccess.heap
      ⟨some [2, 4], some [120, 120]⟩).trace
      = [.avro_reader_reset 30,
         .PyArg_ParseTupleAndKeywords true,
         .avro_reader_memory_set_source 30 [2, 4] 2,
         .avro_generic_value_new 20 .value 0,
         .avro_schema_from_json [120, 120, 0] 22 0,
         .avro_generic_class_from_schema 0 0,
         .avro_generic_value_new 0 .source 0,
         .avro_value_read_with_resolution 30 ⟨[2, 4], 2, 0⟩ 0,
         .avro_value_decref .source,
         .avro_schema_decref 0,
         .avro_value_iface_decref 0,
         .avro_to_python 0 70,
         .avro_value_decref .value] := by
  refine ⟨rfl, by decide, by decide, by decide⟩

/-- C6, as stated, fails: on the session of `sampleSuccess`, whose reader
schema text is `{}`, a call that supplies the same text `{}` as writer schema
takes the resolved read, parsing the writer text and deriving a writer plan. -/
theorem decode_dispatch_refuted :
    AvroDeserializer_init sampleLib (fresh 1) sampleHeap sampleArgs = some sampleSuccess ∧
    AvroDeserializer_reduce sampleSuccess.self = ⟨1, some [123, 125]⟩ ∧
    (AvroDeserializer_deserialize sampleLib sampleSuccess.self sampleSuccess.heap
      ⟨some [2, 4], some [123, 125]⟩).trace.filterMap readKind = [.resolved] ∧
    (AvroDeserializer_deserialize sampleLib sampleSuccess.self sampleSuccess.heap
      ⟨some [2, 4], some [123, 125]⟩).trace.filter isWriterCall
      = [.avro_schema_from_json [123, 125, 0] 0 10,
         .avro_generic_class_from_schema 10 20,
         .avro_generic_value_new 20 .source 0] := by
  refine ⟨rfl, by decide, by decide, by decide⟩

/-- C6, amended: for every `deserialize` call, (1) if the arguments parse and
no writer schema is supplied, the call runs the direct read once, no resolved
read and no call on a writer schema; (2) if the arguments parse and a writer
schema `w` is supplied, whether or not it differs from the reader schema, the
call parses `w`, derives the writer plan, allocates the writer value and then
runs the resolved read once, and no direct read; (3) if the arguments do not
parse, no read runs.  No call runs two reads. -/
theorem decode_dispatch_amended {V : Type} (lib : AvroLib V) (s : AvroDeserializer) (heap : Heap)
    (a : DeserializeArgs) :
    (∀ b, a.buffer = some b → a.writer_schema = none →
      (AvroDeserializer_deserialize lib s heap a).trace.filterMap readKind = [.direct] ∧
      (AvroDeserializer_deserialize lib s heap a).trace.filter isWriterCall = []) ∧
    (∀ b w, a.buffer = some b → a.writer_schema = some w → 0 ∉ w →
      (AvroDeserializer_deserialize lib s heap a).trace.filterMap readKind = [.resolved] ∧
      (AvroDeserializer_deserialize lib s heap a).trace.filter isWriterCall
        = [.avro_schema_from_json (w ++ [0]) (lib.avro_schema_from_json (w ++ [0])).1
             (lib.avro_schema_from_json (w ++ [0])).2,
           .avro_generic_class_from_schema (lib.avro_schema_from_json (w ++ [0])).2
             (lib.avro_generic_class_from_schema (lib.avro_schema_from_json (w ++ [0])).2),
           .avro_generic_value_new
             (lib.avro_generic_class_from_schema (lib.avro_schema_from_json (w ++ [0])).2)
             .source
             (lib.avro_generic_value_new
               (lib.avro_generic_class_from_schema
                 (lib.avro_schema_from_json (w ++ [0])).2)).1]) ∧
    (parseDeserializeArgs a = none →
      (AvroDeserializer_deserialize lib s heap a).trace.filterMap readKind = []) ∧
    ((AvroDeserializer_deserialize lib s heap a).trace.filterMap readKind).length ≤ 1 := by
  refine ⟨?_, ?_, ?_, ?_⟩
  · intro b hb hw
    have hp : parseDeserializeArgs a = some (b, b.length, none) := by
      simp [parseDeserializeArgs, hb, hw]
    unfold AvroDeserializer_deserialize
    simp only [hp]
    split_ifs <;> simp [readKind, isWriterCall]
  · intro b w hb hw h0
    have hp : parseDeserializeArgs a = some (b, b.length, some (w ++ [0])) := by
      simp [parseDeserializeArgs, hb, hw, h0]
    unfold AvroDeserializer_deserialize
    simp only [hp]
    split_ifs <;> simp [readKind, isWriterCall]
  · intro hp
    unfold AvroDeserializer_deserialize
    simp [hp, readKind]
  · unfold AvroDeserializer_deserialize
    cases hp : parseDeserializeArgs a with
    | none => simp [readKind]
    | some pr =>
      obtain ⟨buffer, size, w⟩ := pr
      cases w <;> simp only [] <;> split_ifs <;> simp [readKind]

/-- Witness of C6 amended: a call on the session of `sampleSuccess` with the
writer schema text `{}`. -/
theorem decode_dispatch_amended_witness :
    (AvroDeserializer_deserialize sampleLib sampleSuccess.self sampleSuccess.heap
      ⟨some [2, 4], some [123, 125]⟩).trace.filterMap readKind = [.resolved] ∧
    ((AvroDeserializer_deserialize sampleLib sampleSuccess.self sampleSuccess.heap
      ⟨some [2, 4], some [123, 125]⟩).trace.filterMap readKind).length ≤ 1 :=
  ⟨((decode_dispatch_amended sampleLib sampleSuccess.self sampleSuccess.heap
      ⟨some [2, 4], some [123, 125]⟩).2.1 [2, 4] [123, 125] rfl rfl (by decide)).1,
   (decode_dispatch_amended sampleLib sampleSuccess.self sampleSuccess.heap
      ⟨some [2, 4], some [123, 125]⟩).2.2.2⟩

theorem releases_close (s : AvroDeserializer) :
    releases (AvroDeserializer_close s).trace = releases (do_close s).trace := by
  simp [AvroDeserializer_close, releases, released]

theorem do_close_releases_cursor (s : AvroDeserializer)
    (h : s.flags &&& DESERIALIZER_READER_OK ≠ 0) :
    Resource.cursor s.datum_reader ∈ releases (do_close s).trace := by
  unfold do_close
  by_cases h2 : s.flags &&& DESERIALIZER_SCHEMA_OK = 0 <;>
  cases h3 : s.schema_json <;>
  by_cases h4 : s.iface = 0 <;>
  simp [h, h2, h3, h4, releases, released, and_bitNot32_reader_schema]

theorem flagsTellHeld_init {V : Type} (lib : AvroLib V) (ty : Ptr) (heap : Heap)
    (args : InitArgs) (r : InitResult)
    (hinit : AvroDeserializer_init lib (fresh ty) heap args = some r) :
    FlagsTellHeld (afterInit r) := by
  rcases init_fresh_cases lib ty heap args r hinit with
    ⟨_, rfl⟩ | ⟨text, types, _, h⟩
  · simp [FlagsTellHeld, afterInit, fresh, acquisitions, acquired]
  · rcases h with ⟨h1, rfl⟩ | ⟨h1a, h1b, h2, h⟩
    · have h0 : ¬((lib.avro_schema_from_json text).1 = 0 ∧
          (lib.avro_schema_from_json text).2 ≠ 0) := by
        rintro ⟨ha, hb⟩
        rcases h1 with h1 | h1
        · exact h1 ha
        · exact hb h1
      simp [FlagsTellHeld, afterInit, fresh, acquisitions, initCalls, acquired, h0]
    · rcases h with ⟨h3, rfl⟩ | ⟨h3, h4, rfl⟩ | ⟨h3, h4, h⟩
      · simp [FlagsTellHeld, afterInit, initSelf, acquisitions, initCalls, acquired,
          DESERIALIZER_SCHEMA_OK, DESERIALIZER_READER_OK, h1a, h1b, h2, h3]
      · simp [FlagsTellHeld, afterInit, initSelf, acquisitions, initCalls, acquired,
          DESERIALIZER_SCHEMA_OK, DESERIALIZER_READER_OK, h1a, h1b, h2, h3, h4]
      · rcases h with ⟨o, _, _, _, rfl⟩ | ⟨o, _, _, _, h7, rfl⟩ | ⟨o, _, _, _, _, rfl⟩ |
          ⟨_, rfl⟩ <;>
        simp [FlagsTellHeld, afterInit, initSelf, acquisitions, initCalls, acquired,
          DESERIALIZER_SCHEMA_OK, DESERIALIZER_READER_OK, h1a, h1b, h2, h3, h4]

theorem flagsTellHeld_step {V : Type} (lib : AvroLib V) (st : Tracked) (op : Op)
    (h : FlagsTellHeld st) : FlagsTellHeld (step lib st op) := by
  obtain ⟨h1, h2, h3⟩ := h
  cases op with
  | deserialize a =>
    simp only [step, FlagsTellHeld, deserialize_self]
    exact ⟨h1, h2, h3⟩
  | close =>
    obtain ⟨c1, c2, c3, c4⟩ := do_close_released st.self
    have hs : (AvroDeserializer_close st.self).self = (do_close st.self).self := rfl
    refine ⟨?_, ?_, ?_⟩
    · intro hf
      simp only [step, hs] at hf
      exact absurd c1 hf
    · intro hi
      simp only [step, hs] at hi
      exact absurd c4 hi
    · intro p hp
      simp only [step, List.mem_filter, decide_eq_true_eq, releases_close] at hp
      obtain ⟨hf, rfl⟩ := h3 p hp.1
      exact absurd (do_close_releases_cursor st.self hf) hp.2

theorem flagsTellHeld_run {V : Type} (lib : AvroLib V) (ops : List Op) :
    ∀ st : Tracked, FlagsTellHeld st → FlagsTellHeld (run lib st ops) := by
  induction ops with
  | nil => intro st h; exact h
  | cons op ops ih =>
    intro st h
    simp only [run, List.foldl_cons]
    exact ih _ (flagsTellHeld_step lib st op h)

/-- The cursor and plan calls of a `deserialize` call whose arguments do not
parse, and of one whose arguments parse. -/
theorem deserialize_used {V : Type} (lib : AvroLib V) (s : AvroDeserializer) (heap : Heap)
    (a : DeserializeArgs) :
    (parseDeserializeArgs a = none →
      (AvroDeserializer_deserialize lib s heap a).trace.filterMap used
        = [.cursor s.datum_reader]) ∧
    (parseDeserializeArgs a ≠ none →
      (AvroDeserializer_deserialize lib s heap a).trace.filterMap used
        = [.cursor s.datum_reader, .cursor s.datum_reader, .plan s.iface,
           .cursor s.datum_reader]) ∧
    (AvroDeserializer_deserialize lib s heap a).trace.head?
      = some (Call.avro_reader_reset s.datum_reader) := by
  unfold AvroDeserializer_deserialize
  cases hp : parseDeserializeArgs a with
  | none => simp [used]
  | some pr =>
    obtain ⟨buffer, size, w⟩ := pr
    cases w <;> simp only [] <;> split_ifs <;> simp [used]

/-- A `deserialize` call whose arguments parse issues a read on the session's
cursor pointer. -/
theorem deserialize_reads_cursor {V : Type} (lib : AvroLib V) (s : AvroDeserializer)
    (heap : Heap) (a : DeserializeArgs) (hparse : parseDeserializeArgs a ≠ none) :
    ∃ c ∈ (AvroDeserializer_deserialize lib s heap a).trace,
      readKind c ≠ none ∧ used c = some (.cursor s.datum_reader) := by
  unfold AvroDeserializer_deserialize
  cases hp : parseDeserializeArgs a with
  | none => exact absurd hp hparse
  | some pr =>
    obtain ⟨buffer, size, w⟩ := pr
    cases w <;> simp only [] <;> split_ifs <;> simp [readKind, used]

theorem init_ok_flags {V : Type} (lib : AvroLib V) (ty : Ptr) (heap : Heap)
    (args : InitArgs) (r : InitResult)
    (hinit : AvroDeserializer_init lib (fresh ty) heap args = some r)
    (hok : r.rval = 0) :
    r.self.flags &&& DESERIALIZER_READER_OK ≠ 0 ∧ r.self.iface ≠ 0 := by
  rcases init_fresh_cases lib ty heap args r hinit with
    ⟨_, rfl⟩ | ⟨text, types, _, h⟩
  · exact absurd hok (by simp)
  · rcases h with ⟨h1, rfl⟩ | ⟨h1a, h1b, h2, h⟩
    · exact absurd hok (by simp)
    · rcases h with ⟨h3, rfl⟩ | ⟨h3, h4, rfl⟩ | ⟨h3, h4, h⟩
      · exact absurd hok (by simp)
      · exact absurd hok (by simp)
      · rcases h with ⟨o, _, _, _, rfl⟩ | ⟨o, _, _, _, h7, rfl⟩ | ⟨o, _, _, _, _, rfl⟩ |
          ⟨_, rfl⟩
        · simp [initSelf, DESERIALIZER_SCHEMA_OK, DESERIALIZER_READER_OK, h3]
        · exact absurd hok (by simp)
        · simp [initSelf, DESERIALIZER_SCHEMA_OK, DESERIALIZER_READER_OK, h3]
        · simp [initSelf, DESERIALIZER_SCHEMA_OK, DESERIALIZER_READER_OK, h3]

/-- A `deserialize` call does not depend on the `flags` field of the session. -/
theorem deserialize_flags {V : Type} (lib : AvroLib V) (s : AvroDeserializer) (heap : Heap)
    (a : DeserializeArgs) (f : Nat) :
    (AvroDeserializer_deserialize lib { s with flags := f } heap a).ret
      = (AvroDeserializer_deserialize lib s heap a).ret ∧
    (AvroDeserializer_deserialize lib { s with flags := f } heap a).trace
      = (AvroDeserializer_deserialize lib s heap a).trace ∧
    (AvroDeserializer_deserialize lib { s with flags := f } heap a).heap
      = (AvroDeserializer_deserialize lib s heap a).heap ∧
    (AvroDeserializer_deserialize lib { s with flags := f } heap a).self
      = { s with flags := f } := by
  refine ⟨?_, ?_, ?_, deserialize_self lib _ heap a⟩ <;>
  · unfold AvroDeserializer_deserialize
    cases hp : parseDeserializeArgs a with
    | none => rfl
    | some pr =>
      obtain ⟨buffer, size, w⟩ := pr
      cases w <;> simp only [] <;> split_ifs <;> rfl

/-- C10, as stated, fails for a failed constructor run: with
`sampleLibNoRegistry` the constructor returns -1 at the creation of the
registry, after the cursor 30 and the plan 20 were acquired; a `deserialize`
call on that session works on the cursor 30 and the plan 20 only, both held,
and returns the object 70. -/
theorem failed_init_may_hold_cursor :
    AvroDeserializer_init sampleLibNoRegistry (fresh 1) sampleHeap sampleArgsTracking
      = some sampleRegistryFailure ∧
    sampleRegistryFailure.rval = -1 ∧
    (afterInit sampleRegistryFailure).held
      = [.schema 10, .schemaText 40, .plan 20, .cursor 30] ∧
    (AvroDeserializer_deserialize sampleLibNoRegistry sampleRegistryFailure.self
      sampleRegistryFailure.heap ⟨some [2, 4], none⟩).trace.filterMap used
      = [.cursor 30, .cursor 30, .plan 20, .cursor 30] ∧
    (AvroDeserializer_deserialize sampleLibNoRegistry sampleRegistryFailure.self
      sampleRegistryFailure.heap ⟨some [2, 4], none⟩).ret = 70 := by
  refine ⟨rfl, rfl, by decide, by decide, by decide⟩

/-- C10, amended: `deserialize` never tests `flags`.  For every session
reached from a fresh one by a constructor run (successful or not) and any
sequence of `deserialize` and `close` calls, and for every further
`deserialize` call: (1) if `DESERIALIZER_READER_OK` is set and `iface` is not
null, every cursor and plan the call works on is held; (2) if
`DESERIALIZER_READER_OK` is clear, the first thing the call does is reset the
cursor `datum_reader`, which is not held, and when its arguments parse it goes
on to read from that cursor; (3) the bit is set exactly when the cursor is
held; (4) after `close` the bit is clear; (5) after a successful constructor
run the bit is set and `iface` is not null; (6) after a constructor run that
acquired no cursor the bit is clear; (7) the call does not depend on `flags`:
with any other value `f` in the `flags` field it returns the same object or
`NULL`, issues the same calls, leaves the same readers, and leaves `f` in the
field. -/
theorem deserialize_ignores_flags {V : Type} (lib : AvroLib V) (ty : Ptr) (heap : Heap)
    (args : InitArgs) (r : InitResult) (ops : List Op) (a : DeserializeArgs)
    (hinit : AvroDeserializer_init lib (fresh ty) heap args = some r) :
    ((run lib (afterInit r) ops).self.flags &&& DESERIALIZER_READER_OK ≠ 0 →
      (run lib (afterInit r) ops).self.iface ≠ 0 →
      ∀ u ∈ (AvroDeserializer_deserialize lib (run lib (afterInit r) ops).self
              (run lib (afterInit r) ops).heap a).trace.filterMap used,
        u ∈ (run lib (afterInit r) ops).held) ∧
    ((run lib (afterInit r) ops).self.flags &&& DESERIALIZER_READER_OK = 0 →
      (AvroDeserializer_deserialize lib (run lib (afterInit r) ops).self
          (run lib (afterInit r) ops).heap a).trace.head?
        = some (Call.avro_reader_reset (run lib (afterInit r) ops).self.datum_reader) ∧
      Resource.cursor (run lib (afterInit r) ops).self.datum_reader
        ∉ (run lib (afterInit r) ops).held ∧
      (parseDeserializeArgs a ≠ none →
        ∃ c ∈ (AvroDeserializer_deserialize lib (run lib (afterInit r) ops).self
                (run lib (afterInit r) ops).heap a).trace,
          readKind c ≠ none ∧
          used c = some (.cursor (run lib (afterInit r) ops).self.datum_reader))) ∧
    ((run lib (afterInit r) ops).self.flags &&& DESERIALIZER_READER_OK ≠ 0 ↔
      Resource.cursor (run lib (afterInit r) ops).self.datum_reader
        ∈ (run lib (afterInit r) ops).held) ∧
    (run lib (afterInit r) (ops ++ [Op.close])).self.flags &&& DESERIALIZER_READER_OK = 0 ∧
    (r.rval = 0 → r.self.flags &&& DESERIALIZER_READER_OK ≠ 0 ∧ r.self.iface ≠ 0) ∧
    ((∀ p, Resource.cursor p ∉ acquisitions r.trace) →
      r.self.flags &&& DESERIALIZER_READER_OK = 0) ∧
    (∀ f : Nat,
      (AvroDeserializer_deserialize lib { (run lib (afterInit r) ops).self with flags := f }
          (run lib (afterInit r) ops).heap a).ret
        = (AvroDeserializer_deserialize lib (run lib (afterInit r) ops).self
            (run lib (afterInit r) ops).heap a).ret ∧
      (AvroDeserializer_deserialize lib { (run lib (afterInit r) ops).self with flags := f }
          (run lib (afterInit r) ops).heap a).trace
        = (AvroDeserializer_deserialize lib (run lib (afterInit r) ops).self
            (run lib (afterInit r) ops).heap a).trace ∧
      (AvroDeserializer_deserialize lib { (run lib (afterInit r) ops).self with flags := f }
          (run lib (afterInit r) ops).heap a).heap
        = (AvroDeserializer_deserialize lib (run lib (afterInit r) ops).self
            (run lib (afterInit r) ops).heap a).heap ∧
      (AvroDeserializer_deserialize lib { (run lib (afterInit r) ops).self with flags := f }
          (run lib (afterInit r) ops).heap a).self
        = { (run lib (afterInit r) ops).self with flags := f }) := by
  have hinv := flagsTellHeld_run lib ops (afterInit r) (flagsTellHeld_init lib ty heap args r hinit)
  obtain ⟨i1, i2, i3⟩ := hinv
  obtain ⟨u1, u2, u3⟩ := deserialize_used lib (run lib (afterInit r) ops).self
    (run lib (afterInit r) ops).heap a
  refine ⟨?_, ?_, ⟨i1, fun h => (i3 _ h).1⟩, ?_, init_ok_flags lib ty heap args r hinit, ?_,
    fun f => deserialize_flags lib _ _ a f⟩
  · intro hf hi u hu
    by_cases hp : parseDeserializeArgs a = none
    · rw [u1 hp] at hu
      simp only [List.mem_singleton] at hu
      subst hu
      exact i1 hf
    · rw [u2 hp] at hu
      simp only [List.mem_cons, List.mem_singleton, List.not_mem_nil, or_false] at hu
      rcases hu with rfl | rfl | rfl | rfl
      · exact i1 hf
      · exact i1 hf
      · exact i2 hi
      · exact i1 hf
  · intro hf
    refine ⟨u3, fun hmem => (i3 _ hmem).1 hf, fun hp => ?_⟩
    exact deserialize_reads_cursor lib _ _ a hp
  · simp only [run, List.foldl_append, List.foldl_cons, List.foldl_nil, step]
    exact (do_close_released _).1
  · intro hnone
    by_contra hf
    exact hnone _ ((flagsTellHeld_init lib ty heap args r hinit).1 hf)

/-- Witness of C10 amended: the session of `sampleSuccess` after `close`; a
further `deserialize` call resets and reads the released cursor 30, and returns
the same with both flag bits set again. -/
theorem deserialize_ignores_flags_witness :
    AvroDeserializer_init sampleLib (fresh 1) sampleHeap sampleArgs = some sampleSuccess ∧
    (run sampleLib (afterInit sampleSuccess) [Op.close]).self.flags
      &&& DESERIALIZER_READER_OK = 0 ∧
    (AvroDeserializer_deserialize sampleLib
        (run sampleLib (afterInit sampleSuccess) [Op.close]).self
        (run sampleLib (afterInit sampleSuccess) [Op.close]).heap
        ⟨some [2, 4], none⟩).trace.head?
      = some (Call.avro_reader_reset
          (run sampleLib (afterInit sampleSuccess) [Op.close]).self.datum_reader) ∧
    Resource.cursor (run sampleLib (afterInit sampleSuccess) [Op.close]).self.datum_reader
      ∉ (run sampleLib (afterInit sampleSuccess) [Op.close]).held ∧
    (parseDeserializeArgs ⟨some [2, 4], none⟩ ≠ none →
      ∃ c ∈ (AvroDeserializer_deserialize sampleLib
              (run sampleLib (afterInit sampleSuccess) [Op.close]).self
              (run sampleLib (afterInit sampleSuccess) [Op.close]).heap
              ⟨some [2, 4], none⟩).trace,
        readKind c ≠ none ∧
        used c = some (.cursor
          (run sampleLib (afterInit sampleSuccess) [Op.close]).self.datum_reader)) ∧
    (AvroDeserializer_deserialize sampleLib
        { (run sampleLib (afterInit sampleSuccess) [Op.close]).self with flags := 3 }
        (run sampleLib (afterInit sampleSuccess) [Op.close]).heap ⟨some [2, 4], none⟩).ret
      = (AvroDeserializer_deserialize sampleLib
          (run sampleLib (afterInit sampleSuccess) [Op.close]).self
          (run sampleLib (afterInit sampleSuccess) [Op.close]).heap ⟨some [2, 4], none⟩).ret :=
  ⟨rfl, by decide,
    ((deserialize_ignores_flags sampleLib 1 sampleHeap sampleArgs sampleSuccess [Op.close]
      ⟨some [2, 4], none⟩ rfl).2.1 (by decide)).1,
    ((deserialize_ignores_flags sampleLib 1 sampleHeap sampleArgs sampleSuccess [Op.close]
      ⟨some [2, 4], none⟩ rfl).2.1 (by decide)).2.1,
    ((deserialize_ignores_flags sampleLib 1 sampleHeap sampleArgs sampleSuccess [Op.close]
      ⟨some [2, 4], none⟩ rfl).2.1 (by decide)).2.2,
    ((deserialize_ignores_flags sampleLib 1 sampleHeap sampleArgs sampleSuccess [Op.close]
      ⟨some [2, 4], none⟩ rfl).2.2.2.2.2.2 3).1⟩

end Pyavroc
